import Mathlib

/-!
Shallow embedding of the metrics-server component handler of the
rainbond-operator repository (`pkg/controller/.../metrics_server.go`
together with the `rainbondcluster_types.go` data model).

The embedding follows the Go source:
* a Go `map[string]string` is an association list with in-place overwrite
  semantics (`setKV`), and — because Go maps are reference types — a struct
  field that stores `m.labels` is modelled as a pointer (`LabelPtr`) into
  the handler's single shared label-map cell;
* the controller-runtime client is modelled by injecting the result of each
  Get (`CPResult`: found object, NotFound, or any other error), and the
  writes a method issues are returned as an explicit operation trace
  (`Op.create` / `Op.update`);
* stateful methods return the updated handler state explicitly.
-/

/-- Contents of a Go `map[string]string`, as an association list whose
insertion overwrites an existing key in place and appends a fresh key. -/
abbrev LMap := List (String × String)

/-- Map lookup: first binding of the key wins (keys are kept unique by
`setKV`). -/
def lookupKV : LMap → String → Option String
  | [], _ => none
  | (k', v') :: rest, k => if k' = k then some v' else lookupKV rest k

/-- Go map assignment `m[k] = v`: overwrite the existing binding of `k` in
place, or append a new binding. -/
def setKV : LMap → String → String → LMap
  | [], k, v => [(k, v)]
  | (k', v') :: rest, k, v =>
      if k' = k then (k, v) :: rest else (k', v') :: setKV rest k v

/-- A reference to a `map[string]string` value.  Go maps are reference
types: storing `m.labels` in a struct field stores the same map object, so
such fields are modelled as `handlerLabels`, a pointer to the handler's
shared `labels` cell; `lit` is a freshly allocated literal map. -/
inductive LabelPtr where
  | handlerLabels : LabelPtr
  | lit : LMap → LabelPtr
deriving DecidableEq

/-- Dereference a label-map pointer given the current contents of the
handler's shared `labels` cell. -/
def LabelPtr.deref (cur : LMap) : LabelPtr → LMap
  | .handlerLabels => cur
  | .lit l => l

/-- `kubeaggregatorv1beta1.ServiceReference` — back-reference from the
APIService singleton to its backing Service.  The Go field is a pointer
that the handler dereferences unconditionally, so it is modelled as a
plain value. -/
structure ServiceReference where
  Name : String
  Namespace : String
deriving DecidableEq

/-- `kubeaggregatorv1beta1.APIServiceSpec`, restricted to the fields the
handler reads or writes. -/
structure APIServiceSpec where
  Service : ServiceReference
  Group : String
  Version : String
  InsecureSkipTLSVerify : Bool
  GroupPriorityMinimum : Int
  VersionPriority : Int
deriving DecidableEq

/-- `kubeaggregatorv1beta1.APIService`: the cluster-scoped singleton.  The
Go zero value of `ResourceVersion` (the revision token) is the empty
string; a freshly built object carries `""`. -/
structure APIService where
  Name : String
  ResourceVersion : String
  Spec : APIServiceSpec
deriving DecidableEq

/-- The fields of `RbdComponent` that the metrics-server handler reads.
The type declaration itself lives outside the handler file;
`ImagePullPolicyResult` stands for the value returned by the component's
`ImagePullPolicy()` method. -/
structure RbdComponent where
  Namespace : String
  Replicas : Option Int
  Image : String
  ImagePullPolicyResult : String
deriving DecidableEq

/-- Of the full `RainbondCluster` custom resource the handler reads only
`ObjectMeta.Namespace`. -/
structure RainbondCluster where
  Namespace : String
deriving DecidableEq

/-- `corev1.ContainerPort`. -/
structure ContainerPort where
  Name : String
  ContainerPort : Int
deriving DecidableEq

/-- `corev1.SecurityContext`, restricted to the fields the handler sets. -/
structure SecurityContext where
  ReadOnlyRootFilesystem : Option Bool
  RunAsNonRoot : Option Bool
  RunAsUser : Option Int
deriving DecidableEq

/-- `corev1.VolumeMount`. -/
structure VolumeMount where
  Name : String
  MountPath : String
deriving DecidableEq

/-- `corev1.Container`, restricted to the fields the handler sets. -/
structure Container where
  Name : String
  Image : String
  ImagePullPolicy : String
  Args : List String
  Ports : List ContainerPort
  SecCtx : SecurityContext
  VolumeMounts : List VolumeMount
deriving DecidableEq

/-- `corev1.Volume`; the handler only ever mounts an EmptyDir. -/
structure Volume where
  Name : String
  EmptyDir : Bool
deriving DecidableEq

/-- `appsv1.Deployment`, restricted to the fields the handler sets.  The
three label-map fields are `LabelPtr`s because the Go code stores the
handler's shared map by reference in all three places. -/
structure Deployment where
  Name : String
  Namespace : String
  Labels : LabelPtr
  Replicas : Option Int
  SelectorMatchLabels : LabelPtr
  TemplateName : String
  TemplateLabels : LabelPtr
  ServiceAccountName : String
  TerminationGracePeriodSeconds : Option Int
  NodeSelector : LMap
  Containers : List Container
  Volumes : List Volume
deriving DecidableEq

/-- `corev1.ServicePort` (target port given by its IntVal). -/
structure ServicePort where
  Port : Int
  TargetPort : Int
deriving DecidableEq

/-- `corev1.Service` as built by the handler; its two label-map fields
store the handler's shared map by reference. -/
structure Service where
  Name : String
  Namespace : String
  Labels : LabelPtr
  Ports : List ServicePort
  Selector : LabelPtr
deriving DecidableEq

/-- A Service fetched from the control plane by `ListPods`; only its
`Spec.Selector` is consumed. -/
structure FetchedService where
  Selector : LMap
deriving DecidableEq

/-- Result of a control-plane Get, as classified by the Go code via
`k8sErrors.IsNotFound`. -/
inductive CPResult (α : Type) where
  | ok : α → CPResult α
  | notFound : CPResult α
  | otherErr : String → CPResult α
deriving DecidableEq

/-- A write issued against the control plane. -/
inductive Op where
  | create : APIService → Op
  | update : APIService → Op
deriving DecidableEq

/-- `MetricsServerName` — name for metrics-server. -/
def MetricsServerName : String := "metrics-server"

/-- The fixed singleton name `v1beta1.metrics.k8s.io`. -/
def metricsGroupAPI : String := "v1beta1.metrics.k8s.io"

/-- The `metricsServer` handler state.  `labels` is the contents of the
shared label-map cell that every `LabelPtr.handlerLabels` points at;
`apiservice` is the singleton observed by `Before`, nil until then.  The
context, client and unused `db` field are not part of the state: the
client is modelled by injected `CPResult`s. -/
structure metricsServer where
  labels : LMap
  component : RbdComponent
  cluster : RainbondCluster
  apiservice : Option APIService
deriving DecidableEq

/-- `NewMetricsServer` — creates a new metrics-server handler with a nil
`apiservice`.  `LabelsForRainbondComponent` is defined outside the handler
file, so its result is taken as the `labels` argument. -/
def NewMetricsServer (labels : LMap) (component : RbdComponent)
    (cluster : RainbondCluster) : metricsServer :=
  { labels := labels
    component := component
    cluster := cluster
    apiservice := none }

/-- `Before()`: Get the singleton APIService by its fixed name.  On
success store it in the handler; on NotFound do nothing; on any other
error return it wrapped.  No write is ever issued (the trace is empty). -/
def metricsServer.Before (m : metricsServer) (get : CPResult APIService) :
    metricsServer × List Op × Option String :=
  match get with
  | .ok apiservice => ({ m with apiservice := some apiservice }, [], none)
  | .notFound => (m, [], none)
  | .otherErr e =>
      (m, [],
       some ("get apiservice(" ++ MetricsServerName ++ "/" ++
             m.cluster.Namespace ++ "): " ++ e))

/-- `apiServiceCreatedByRainbond()`: owned when no singleton was observed,
or when the observed singleton's back-reference matches the component's
namespace and the fixed metrics-server name. -/
def metricsServer.apiServiceCreatedByRainbond (m : metricsServer) : Bool :=
  match m.apiservice with
  | none => true
  | some apiservice =>
      apiservice.Spec.Service.Namespace == m.component.Namespace
        && apiservice.Spec.Service.Name == MetricsServerName

/-- `deployment()`: the metrics-server Deployment.  All three label-map
fields store the handler's shared map by reference
(`LabelPtr.handlerLabels`); the node selector is a fresh literal map. -/
def metricsServer.deployment (m : metricsServer) : Deployment :=
  { Name := MetricsServerName
    Namespace := m.component.Namespace
    Labels := .handlerLabels
    Replicas := m.component.Replicas
    SelectorMatchLabels := .handlerLabels
    TemplateName := MetricsServerName
    TemplateLabels := .handlerLabels
    ServiceAccountName := "rainbond-operator"
    TerminationGracePeriodSeconds := some 0
    NodeSelector := [("beta.kubernetes.io/os", "linux"),
                     ("kubernetes.io/arch", "amd64")]
    Containers :=
      [{ Name := MetricsServerName
         Image := m.component.Image
         ImagePullPolicy := m.component.ImagePullPolicyResult
         Args := ["--cert-dir=/tmp", "--secure-port=4443",
                  "--kubelet-insecure-tls",
                  "--kubelet-preferred-address-types=InternalIP"]
         Ports := [{ Name := "main-port", ContainerPort := 4443 }]
         SecCtx := { ReadOnlyRootFilesystem := some true
                     RunAsNonRoot := some true
                     RunAsUser := some 1000 }
         VolumeMounts := [{ Name := "tmp-dir", MountPath := "/tmp" }] }]
    Volumes := [{ Name := "tmp-dir", EmptyDir := true }] }

/-- `serviceForMetricsServer()`: Go's `labels := m.labels` copies the map
reference, so the two key assignments mutate the handler's shared map in
place; the returned handler state carries the augmented map, and the
built Service's `Labels` and `Selector` both alias that same map. -/
def metricsServer.serviceForMetricsServer (m : metricsServer) :
    Service × metricsServer :=
  let labels :=
    setKV (setKV m.labels "kubernetes.io/name" "Metrics-server")
      "kubernetes.io/cluster-service" "true"
  ({ Name := MetricsServerName
     Namespace := m.component.Namespace
     Labels := .handlerLabels
     Ports := [{ Port := 443, TargetPort := 4443 }]
     Selector := .handlerLabels },
   { m with labels := labels })

/-- A desired object emitted by `Resources()`. -/
inductive ResourceObj where
  | dep : Deployment → ResourceObj
  | svc : Service → ResourceObj
deriving DecidableEq

/-- `Resources()`: nil when not owned; otherwise the Deployment (built
first) and the Service (whose construction mutates the shared label
map). -/
def metricsServer.Resources (m : metricsServer) :
    List ResourceObj × metricsServer :=
  if !m.apiServiceCreatedByRainbond then ([], m)
  else
    let d := m.deployment
    let sm := m.serviceForMetricsServer
    ([.dep d, .svc sm.1], sm.2)

/-- `apiserviceForMetricsServer()`: the freshly built singleton.  Its
back-reference uses the cluster's namespace, and its revision token is
the Go zero value `""`. -/
def metricsServer.apiserviceForMetricsServer (m : metricsServer) :
    APIService :=
  { Name := metricsGroupAPI
    ResourceVersion := ""
    Spec := { Service := { Name := MetricsServerName
                           Namespace := m.cluster.Namespace }
              Group := "metrics.k8s.io"
              Version := "v1beta1"
              InsecureSkipTLSVerify := true
              GroupPriorityMinimum := 100
              VersionPriority := 30 } }

/-- `After()`: skipped entirely when not owned.  Otherwise Get the
singleton: a non-NotFound error aborts; NotFound leads to a create of the
freshly built object; an existing singleton has its revision token copied
into the fresh object before an update.  `createOk`/`updateOk` inject the
outcome of the corresponding write. -/
def metricsServer.After (m : metricsServer) (get : CPResult APIService)
    (createOk updateOk : Bool) : List Op × Option String :=
  if !m.apiServiceCreatedByRainbond then ([], none)
  else
    let newAPIService := m.apiserviceForMetricsServer
    match get with
    | .otherErr e =>
        ([],
         some ("get apiservice(" ++ MetricsServerName ++ "/" ++
               m.cluster.Namespace ++ "): " ++ e))
    | .notFound =>
        ([.create newAPIService],
         if createOk then none else some "create new api service failed")
    | .ok apiservice =>
        ([.update { newAPIService with
                      ResourceVersion := apiservice.ResourceVersion }],
         if updateOk then none else some "update api service failed")

/-- `ListPods()`: when owned, list pods in the component's namespace by
the handler's own labels.  When not owned, Get the Service named by the
foreign singleton's back-reference and use its selector; the first
component records that Get's (namespace, name), the second the
(namespace, label selector) passed on to `listPods`, or the error.  The
inner `none` branch is unreachable: a handler without an observed
singleton is always owned. -/
def metricsServer.ListPods (m : metricsServer)
    (getSvc : CPResult FetchedService) :
    Option (String × String) × Except String (String × LMap) :=
  if m.apiServiceCreatedByRainbond then
    (none, .ok (m.component.Namespace, m.labels))
  else
    match m.apiservice with
    | none => (none, .ok (m.component.Namespace, m.labels))
    | some apiservice =>
        (some (apiservice.Spec.Service.Namespace,
               apiservice.Spec.Service.Name),
         match getSvc with
         | .ok svc => .ok (m.component.Namespace, svc.Selector)
         | _ => .error "get svc based on apiservice")

/-- A concrete component, used to evaluate the handler on closed inputs. -/
def comp0 : RbdComponent :=
  { Namespace := "rbd-system"
    Replicas := some 1
    Image := "rainbond/metrics-server:v0.3.6"
    ImagePullPolicyResult := "IfNotPresent" }

/-- A concrete cluster in the same namespace as `comp0`. -/
def clus0 : RainbondCluster := { Namespace := "rbd-system" }

/-- Concrete handler labels. -/
def labels0 : LMap :=
  [("name", "rbd-metrics-server"), ("belongTo", "rainbond-operator")]

/-- A freshly constructed concrete handler. -/
def m0 : metricsServer := NewMetricsServer labels0 comp0 clus0

/-- A concrete singleton whose back-reference `(other, other-svc)` does not
match the platform's expected identity. -/
def foreignAPIService : APIService :=
  { Name := "v1beta1.metrics.k8s.io"
    ResourceVersion := "7"
    Spec := { Service := { Name := "other-svc", Namespace := "other" }
              Group := "metrics.k8s.io"
              Version := "v1beta1"
              InsecureSkipTLSVerify := false
              GroupPriorityMinimum := 100
              VersionPriority := 30 } }

/-! ### Association-list lemmas -/

theorem lookup_setKV_self (m : LMap) (k v : String) :
    lookupKV (setKV m k v) k = some v := by
  induction m with
  | nil => simp [setKV, lookupKV]
  | cons hd tl ih =>
      by_cases h : hd.1 = k
      · simp [setKV, lookupKV, h]
      · simp only [setKV, lookupKV]
        rw [if_neg h, lookupKV, if_neg h]
        exact ih

theorem lookup_setKV_ne (m : LMap) (k k' v : String) (h : k' ≠ k) :
    lookupKV (setKV m k v) k' = lookupKV m k' := by
  induction m with
  | nil =>
      simp only [setKV, lookupKV]
      rw [if_neg (fun hh => h hh.symm)]
  | cons hd tl ih =>
      by_cases hk : hd.1 = k
      · subst hk
        simp only [setKV, if_pos rfl, lookupKV]
        rw [if_neg (fun hh => h hh.symm), if_neg (fun hh => h hh.symm)]
      · simp only [setKV, if_neg hk, lookupKV]
        by_cases hk' : hd.1 = k'
        · rw [if_pos hk', if_pos hk']
        · rw [if_neg hk', if_neg hk']
          exact ih

theorem setKV_eq_self_of_lookup (m : LMap) (k v : String)
    (h : lookupKV m k = some v) : setKV m k v = m := by
  induction m with
  | nil => simp [lookupKV] at h
  | cons hd tl ih =>
      by_cases hk : hd.1 = k
      · simp only [lookupKV, if_pos hk] at h
        cases h
        simp only [setKV, if_pos hk]
        rw [← hk]
      · simp only [lookupKV, if_neg hk] at h
        simp only [setKV, if_neg hk]
        rw [ih h]

/-! ### Invariance of the handler's pure readers under label updates -/

theorem createdByRainbond_service_snd (m : metricsServer) :
    (m.serviceForMetricsServer.2).apiServiceCreatedByRainbond
      = m.apiServiceCreatedByRainbond := by
  cases m with
  | mk l c cl a => cases a <;> rfl

theorem deployment_service_snd (m : metricsServer) :
    (m.serviceForMetricsServer.2).deployment = m.deployment := rfl

theorem service_fst_service_snd (m : metricsServer) :
    (m.serviceForMetricsServer.2).serviceForMetricsServer.1
      = m.serviceForMetricsServer.1 := rfl

theorem augment_idem (L : LMap) :
    setKV (setKV (setKV (setKV L "kubernetes.io/name" "Metrics-server")
          "kubernetes.io/cluster-service" "true")
        "kubernetes.io/name" "Metrics-server")
      "kubernetes.io/cluster-service" "true"
    = setKV (setKV L "kubernetes.io/name" "Metrics-server")
        "kubernetes.io/cluster-service" "true" := by
  have hne : ("kubernetes.io/name" : String) ≠ "kubernetes.io/cluster-service" := by
    decide
  have h1 : lookupKV (setKV (setKV L "kubernetes.io/name" "Metrics-server")
      "kubernetes.io/cluster-service" "true") "kubernetes.io/name"
      = some "Metrics-server" := by
    rw [lookup_setKV_ne _ _ _ _ hne, lookup_setKV_self]
  rw [setKV_eq_self_of_lookup _ _ _ h1,
      setKV_eq_self_of_lookup _ _ _ (lookup_setKV_self _ _ _)]

theorem service_snd_service_snd (m : metricsServer) :
    (m.serviceForMetricsServer.2).serviceForMetricsServer.2
      = m.serviceForMetricsServer.2 := by
  simp [metricsServer.serviceForMetricsServer, augment_idem]

theorem resources_snd_labels (m : metricsServer)
    (h : m.apiServiceCreatedByRainbond = true) :
    (m.Resources).2.labels
      = setKV (setKV m.labels "kubernetes.io/name" "Metrics-server")
          "kubernetes.io/cluster-service" "true" := by
  simp [metricsServer.Resources, h, metricsServer.serviceForMetricsServer]

/-! ### Claim theorems -/

/-- **C2** — Adoption default: after `Before()` runs on a fresh handler
against a control plane with no singleton APIService (the Get reports
NotFound), the adoption decision is owned, and `Resources()` returns the
non-empty set consisting of the metrics-server Deployment and Service. -/
theorem before_notFound_owned_resources_nonempty
    (labels : LMap) (component : RbdComponent) (cluster : RainbondCluster) :
    (((NewMetricsServer labels component cluster).Before
        CPResult.notFound).1).apiServiceCreatedByRainbond = true ∧
    ((((NewMetricsServer labels component cluster).Before
        CPResult.notFound).1).Resources).1
      = [ResourceObj.dep ((NewMetricsServer labels component
            cluster).Before CPResult.notFound).1.deployment,
         ResourceObj.svc (((NewMetricsServer labels component
            cluster).Before CPResult.notFound).1.serviceForMetricsServer).1] ∧
    ((((NewMetricsServer labels component cluster).Before
        CPResult.notFound).1).Resources).1 ≠ [] := by
  refine ⟨rfl, ?_, ?_⟩
  · simp [NewMetricsServer, metricsServer.Before, metricsServer.Resources,
          metricsServer.apiServiceCreatedByRainbond]
  · simp [NewMetricsServer, metricsServer.Before, metricsServer.Resources,
          metricsServer.apiServiceCreatedByRainbond]

/-- **C3 (counterexample)** — the round-trip recognition claim fails when
the component's and the cluster's namespaces differ: with the component in
`platform` and the cluster in `other`, the singleton built by
`apiserviceForMetricsServer` carries back-reference namespace `other`, and
a subsequent `Before()` decides owned = false, not true. -/
theorem roundTrip_recognition_counterexample :
    (((NewMetricsServer []
          { Namespace := "platform", Replicas := none, Image := "img",
            ImagePullPolicyResult := "IfNotPresent" }
          { Namespace := "other" }).Before
        (CPResult.ok ((NewMetricsServer []
          { Namespace := "platform", Replicas := none, Image := "img",
            ImagePullPolicyResult := "IfNotPresent" }
          { Namespace := "other" }).apiserviceForMetricsServer))).1
      ).apiServiceCreatedByRainbond = false := by
  decide

/-- **C3 (amended)** — for every handler, storing the singleton built by
the handler's own `apiserviceForMetricsServer` via `Before()` yields
owned = true exactly when the cluster's namespace equals the component's
namespace: the builder writes the cluster's namespace into the
back-reference while recognition compares against the component's. -/
theorem roundTrip_recognition_iff_namespaces_agree (m : metricsServer) :
    (((m.Before (CPResult.ok m.apiserviceForMetricsServer)).1
      ).apiServiceCreatedByRainbond)
      = (m.cluster.Namespace == m.component.Namespace) := by
  simp [metricsServer.Before, metricsServer.apiServiceCreatedByRainbond,
        metricsServer.apiserviceForMetricsServer, MetricsServerName]

/-- **C5** — evaluation at a failing input: on the concrete owned handler
`m0`, `Resources()` does not leave the handler's stored label map
unchanged; the service helper's two in-place key insertions land in the
shared map, contradicting the read-only/copy-on-write claim. -/
theorem resources_mutates_handler_labels :
    (m0.Resources).2.labels ≠ m0.labels ∧
    (m0.Resources).2.labels
      = setKV (setKV m0.labels "kubernetes.io/name" "Metrics-server")
          "kubernetes.io/cluster-service" "true" := by
  exact ⟨by decide, rfl⟩

/-- **C6** — idempotence of `Resources()`: a second call on the handler
state left by the first call yields a structurally identical object list
and the same handler state (the second round of label insertions
overwrites the same keys with the same values). -/
theorem resources_idempotent (m : metricsServer) :
    ((m.Resources).2).Resources = m.Resources := by
  cases h : m.apiServiceCreatedByRainbond with
  | false => simp [metricsServer.Resources, h]
  | true =>
      simp [metricsServer.Resources, h, createdByRainbond_service_snd,
            deployment_service_snd, service_fst_service_snd,
            service_snd_service_snd]

/-- **C7** — `Before()` error discipline: it issues no control-plane
write, and it returns an error exactly when the Get fails with an error
other than NotFound; both a successful Get and NotFound yield nil. -/
theorem before_read_only_error_discipline (m : metricsServer)
    (get : CPResult APIService) :
    (m.Before get).2.1 = [] ∧
    ((m.Before get).2.2 ≠ none ↔ ∃ e, get = CPResult.otherErr e) := by
  cases get <;> simp [metricsServer.Before]

/-- **C1** — Adoption deference: once `Before()` has observed a singleton
whose back-reference does not match `(component namespace, metrics-server)`,
the handler is not the owner: `Resources()` is empty, `After()` issues no
write and returns nil, and `ListPods()` queries the Service named by the
foreign back-reference and selects pods with that Service's selector
rather than the handler's own labels. -/
theorem foreign_singleton_defers (m : metricsServer) (a : APIService)
    (h : ¬(a.Spec.Service.Namespace = m.component.Namespace ∧
           a.Spec.Service.Name = MetricsServerName)) :
    ((m.Before (CPResult.ok a)).1).apiServiceCreatedByRainbond = false ∧
    (((m.Before (CPResult.ok a)).1).Resources).1 = [] ∧
    (∀ get createOk updateOk,
        ((m.Before (CPResult.ok a)).1).After get createOk updateOk
          = ([], none)) ∧
    (∀ getSvc, (((m.Before (CPResult.ok a)).1).ListPods getSvc).1
        = some (a.Spec.Service.Namespace, a.Spec.Service.Name)) ∧
    (∀ svc, (((m.Before (CPResult.ok a)).1).ListPods (CPResult.ok svc)).2
        = Except.ok (m.component.Namespace, svc.Selector)) := by
  have hb : ((m.Before (CPResult.ok a)).1).apiServiceCreatedByRainbond
      = false := by
    by_cases h1 : a.Spec.Service.Namespace = m.component.Namespace
    · by_cases h2 : a.Spec.Service.Name = MetricsServerName
      · exact absurd ⟨h1, h2⟩ h
      · simp [metricsServer.Before,
              metricsServer.apiServiceCreatedByRainbond, h1, h2]
    · simp [metricsServer.Before,
            metricsServer.apiServiceCreatedByRainbond, h1]
  refine ⟨hb, ?_, ?_, ?_, ?_⟩
  · simp [metricsServer.Resources, hb]
  · intro get createOk updateOk
    simp [metricsServer.After, hb]
  · intro getSvc
    simp only [metricsServer.ListPods, hb] at *
    simp [metricsServer.Before]
  · intro svc
    simp only [metricsServer.ListPods, hb] at *
    simp [metricsServer.Before]

/-- **C1 (witness)** — the deference theorem instantiated at the concrete
handler `m0` and the concrete foreign singleton. -/
theorem foreign_singleton_defers_witness :
    (¬(foreignAPIService.Spec.Service.Namespace = m0.component.Namespace ∧
       foreignAPIService.Spec.Service.Name = MetricsServerName)) ∧
    ((m0.Before (CPResult.ok foreignAPIService)).1
      ).apiServiceCreatedByRainbond = false ∧
    (((m0.Before (CPResult.ok foreignAPIService)).1).Resources).1 = [] ∧
    ((m0.Before (CPResult.ok foreignAPIService)).1).After
        CPResult.notFound true true = ([], none) ∧
    (((m0.Before (CPResult.ok foreignAPIService)).1).ListPods
        (CPResult.ok ⟨[("k8s-app", "alien-metrics")]⟩)).2
      = Except.ok (m0.component.Namespace, [("k8s-app", "alien-metrics")]) :=
  ⟨by decide,
   (foreign_singleton_defers m0 foreignAPIService (by decide)).1,
   (foreign_singleton_defers m0 foreignAPIService (by decide)).2.1,
   (foreign_singleton_defers m0 foreignAPIService (by decide)).2.2.1
     CPResult.notFound true true,
   (foreign_singleton_defers m0 foreignAPIService (by decide)).2.2.2.2
     ⟨[("k8s-app", "alien-metrics")]⟩⟩

/-- **C4** — create-then-update protocol of `After()` on an owned handler:
NotFound yields exactly one create of the freshly built singleton, whose
revision token is the zero value `""`; a present singleton yields exactly
one update carrying the observed revision token; and any update ever
issued carries the token of the object the Get observed. -/
theorem after_create_then_update (m : metricsServer)
    (createOk updateOk : Bool)
    (h : m.apiServiceCreatedByRainbond = true) :
    (m.After CPResult.notFound createOk updateOk).1
      = [Op.create m.apiserviceForMetricsServer] ∧
    m.apiserviceForMetricsServer.ResourceVersion = "" ∧
    (∀ current, (m.After (CPResult.ok current) createOk updateOk).1
        = [Op.update { m.apiserviceForMetricsServer with
                         ResourceVersion := current.ResourceVersion }]) ∧
    (∀ get a, Op.update a ∈ (m.After get createOk updateOk).1 →
        ∃ current, get = CPResult.ok current ∧
          a.ResourceVersion = current.ResourceVersion) := by
  refine ⟨by simp [metricsServer.After, h], rfl,
          fun current => by simp [metricsServer.After, h], ?_⟩
  intro get a hmem
  cases get with
  | ok current =>
      simp [metricsServer.After, h] at hmem
      exact ⟨current, rfl, by rw [hmem]⟩
  | notFound => simp [metricsServer.After, h] at hmem
  | otherErr e => simp [metricsServer.After, h] at hmem

/-- **C4 (witness)** — the create-then-update theorem instantiated at the
concrete owned handler `m0`, with the create and the update trace
evaluated on concrete Get results. -/
theorem after_create_then_update_witness :
    m0.apiServiceCreatedByRainbond = true ∧
    (m0.After CPResult.notFound true true).1
      = [Op.create m0.apiserviceForMetricsServer] ∧
    (m0.After (CPResult.ok foreignAPIService) true true).1
      = [Op.update { m0.apiserviceForMetricsServer with
                       ResourceVersion := foreignAPIService.ResourceVersion }] :=
  ⟨rfl,
   (after_create_then_update m0 true true rfl).1,
   (after_create_then_update m0 true true rfl).2.2.1 foreignAPIService⟩

/-- **C8** — label-map aliasing: on an owned handler the Deployment built
first in `Resources()` stores the handler's shared label map by reference
in its metadata labels, selector matchLabels and pod-template labels (the
same map object the Service's labels and selector also store), and after
`Resources()` returns the two keys inserted by the service helper are
visible through the Deployment's label references. -/
theorem resources_label_aliasing (m : metricsServer)
    (h : m.apiServiceCreatedByRainbond = true) :
    (m.Resources).1 = [ResourceObj.dep m.deployment,
                       ResourceObj.svc m.serviceForMetricsServer.1] ∧
    m.deployment.Labels = LabelPtr.handlerLabels ∧
    m.deployment.SelectorMatchLabels = LabelPtr.handlerLabels ∧
    m.deployment.TemplateLabels = LabelPtr.handlerLabels ∧
    (m.serviceForMetricsServer.1).Labels = LabelPtr.handlerLabels ∧
    (m.serviceForMetricsServer.1).Selector = LabelPtr.handlerLabels ∧
    lookupKV (LabelPtr.deref (m.Resources).2.labels m.deployment.Labels)
        "kubernetes.io/name" = some "Metrics-server" ∧
    lookupKV (LabelPtr.deref (m.Resources).2.labels
          m.deployment.SelectorMatchLabels)
        "kubernetes.io/cluster-service" = some "true" := by
  have hlab := resources_snd_labels m h
  refine ⟨by simp [metricsServer.Resources, h], rfl, rfl, rfl, rfl, rfl,
          ?_, ?_⟩
  · show lookupKV ((m.Resources).2.labels) "kubernetes.io/name"
        = some "Metrics-server"
    rw [hlab, lookup_setKV_ne _ _ _ _ (by decide), lookup_setKV_self]
  · show lookupKV ((m.Resources).2.labels) "kubernetes.io/cluster-service"
        = some "true"
    rw [hlab, lookup_setKV_self]

/-- **C8 (witness)** — the aliasing theorem instantiated at the concrete
owned handler `m0`. -/
theorem resources_label_aliasing_witness :
    m0.apiServiceCreatedByRainbond = true ∧
    m0.deployment.Labels = LabelPtr.handlerLabels ∧
    lookupKV (LabelPtr.deref (m0.Resources).2.labels m0.deployment.Labels)
        "kubernetes.io/name" = some "Metrics-server" :=
  ⟨rfl,
   (resources_label_aliasing m0 rfl).2.1,
   (resources_label_aliasing m0 rfl).2.2.2.2.2.2.1⟩

/-- **C9** — self-selection invariant: any Deployment produced by
`Resources()` has its selector matchLabels and its pod-template labels
given by the same label-map reference, so the selector and the template
labels dereference to the same map even after the service helper has
augmented the shared map. -/
theorem deployment_selector_matches_template (m : metricsServer)
    (d : Deployment) (s : Service) (m' : metricsServer)
    (h : m.Resources = ([ResourceObj.dep d, ResourceObj.svc s], m')) :
    d.SelectorMatchLabels = d.TemplateLabels ∧
    LabelPtr.deref m'.labels d.SelectorMatchLabels
      = LabelPtr.deref m'.labels d.TemplateLabels := by
  cases hb : m.apiServiceCreatedByRainbond with
  | false =>
      rw [metricsServer.Resources] at h
      simp [hb] at h
  | true =>
      rw [metricsServer.Resources] at h
      simp only [hb, Bool.not_true, Bool.false_eq_true, if_false,
                 if_neg, Prod.mk.injEq, List.cons.injEq] at h
      obtain ⟨⟨hd, -, -⟩, -⟩ := h
      cases hd
      exact ⟨rfl, rfl⟩

/-- **C9 (witness)** — the self-selection theorem instantiated at the
concrete owned handler `m0`, whose `Resources()` output is evaluated. -/
theorem deployment_selector_matches_template_witness :
    m0.Resources = ([ResourceObj.dep m0.deployment,
                     ResourceObj.svc m0.serviceForMetricsServer.1],
                    m0.serviceForMetricsServer.2) ∧
    m0.deployment.SelectorMatchLabels = m0.deployment.TemplateLabels :=
  ⟨rfl,
   (deployment_selector_matches_template m0 m0.deployment
      m0.serviceForMetricsServer.1 m0.serviceForMetricsServer.2 rfl).1⟩

/-- **C10** — default ownership with no observation: whenever the stored
`apiservice` is nil (never observed, or `Before()` saw NotFound),
`apiServiceCreatedByRainbond()` returns true, `Resources()` emits the full
object set, and `After()` proceeds to create (on NotFound) or update (on a
present singleton); `NewMetricsServer` starts every handler in that nil
state. -/
theorem nil_apiservice_assumes_ownership (m : metricsServer)
    (h : m.apiservice = none) :
    m.apiServiceCreatedByRainbond = true ∧
    (m.Resources).1 ≠ [] ∧
    (∀ createOk updateOk,
        (m.After CPResult.notFound createOk updateOk).1
          = [Op.create m.apiserviceForMetricsServer]) ∧
    (∀ createOk updateOk current,
        (m.After (CPResult.ok current) createOk updateOk).1
          = [Op.update { m.apiserviceForMetricsServer with
                           ResourceVersion := current.ResourceVersion }]) ∧
    (∀ labels component cluster,
        (NewMetricsServer labels component cluster).apiservice = none) := by
  have hc : m.apiServiceCreatedByRainbond = true := by
    simp [metricsServer.apiServiceCreatedByRainbond, h]
  refine ⟨hc, ?_, ?_, ?_, fun _ _ _ => rfl⟩
  · simp [metricsServer.Resources, hc]
  · intro createOk updateOk
    simp [metricsServer.After, hc]
  · intro createOk updateOk current
    simp [metricsServer.After, hc]

/-- **C10 (witness)** — the default-ownership theorem instantiated at the
concrete fresh handler `m0`, whose `apiservice` is nil by construction. -/
theorem nil_apiservice_assumes_ownership_witness :
    m0.apiservice = none ∧
    (m0.Resources).1 ≠ [] ∧
    (m0.After CPResult.notFound true true).1
      = [Op.create m0.apiserviceForMetricsServer] :=
  ⟨rfl,
   (nil_apiservice_assumes_ownership m0 rfl).2.1,
   (nil_apiservice_assumes_ownership m0 rfl).2.2.1 true true⟩
